import Mathlib

/-!
Verification of the react-python-movies frontend glue code: the error
formatter (`src/ui/src/utils`-style helper), the application shell's
Load/Add/Delete handlers (`src/ui/src/App.js`), and the actor picker
(`src/ui/src/ActorSelect.js`), shallowly embedded as pure Lean functions
over explicit state, with fetch results modelled as an outcome type.
-/

/-- An actor record `{id, name, surname}` as served by `GET /actors`. -/
structure Actor where
  id : Nat
  name : String
  surname : String
deriving DecidableEq

/-- A movie record held by the application shell. `oid` is an object-identity
token: two JavaScript objects are `===` exactly when they are the same object,
which the embedding renders as full structural equality including `oid`
(distinct objects receive distinct `oid`s, so structurally equal values with
different `oid`s model distinct objects with equal content). `id` is the
server-assigned id, absent (`none`) until creation succeeds. -/
structure Movie where
  oid : Nat
  id : Option Nat
  title : String
  year : Nat
  director : String
  description : String
  actors : List Actor
deriving DecidableEq

/-- The application shell's state: the movie list (`useState([])`) and the
adding-movie-view flag (`useState(false)`). -/
structure AppState where
  movies : List Movie
  addingMovie : Bool
deriving DecidableEq

/-- A user-visible toast, `toast.success` or `toast.error`. -/
inductive Toast where
  | success (msg : String)
  | error (msg : String)
deriving DecidableEq

/-- Resolution of an awaited `fetch`: HTTP ok with a parsed JSON body of type
`α`, HTTP non-ok with the error body's optional `detail` field, or a thrown
error carrying its `name` (e.g. "AbortError"). -/
inductive FetchOutcome (α : Type) where
  | ok (val : α)
  | httpError (detail : Option String)
  | networkError (errName : String)
deriving DecidableEq

/-- `COULD_NOT_CONNECT_TO_SERVER` from the utils module. -/
def COULD_NOT_CONNECT_TO_SERVER : String := "Could not connect to server"

/-- `getErrorMessage(contextMessage, errorDetail)` from the utils module:
`errorDetail ? contextMessage + ": " + errorDetail : contextMessage`.
`errorDetail` is a string or `undefined` (`Option String`); JavaScript
truthiness makes both `undefined` and `""` take the else branch. -/
def getErrorMessage (contextMessage : String) (errorDetail : Option String) : String :=
  match errorDetail with
  | none => contextMessage
  | some d => if d = "" then contextMessage else contextMessage ++ ": " ++ d

/-- JavaScript `x || y` for `x` a string-or-undefined and `y` a string:
yields `y` when `x` is `undefined` or `""`, else `x`. -/
def jsOrString (x : Option String) (y : String) : String :=
  match x with
  | none => y
  | some s => if s = "" then y else s

/-- `movie.id = movieWithId.id`: the mutation performed in `handleAddMovie`'s
success branch, assigning the server-returned id onto the submitted movie. -/
def setMovieId (movie : Movie) (k : Nat) : Movie :=
  { movie with id := some k }

/-- `handleAddMovie` in App.js, from the `await fetch('/movies', {method:
'POST', ...})` on: on ok the server body's `id` is assigned onto the movie,
`setMovies([...movies, movie])` appends it, `setAddingMovie(false)` exits the
form view, and a success toast is shown; on HTTP non-ok the error body's
`detail` is formatted with context "Failed to add movie"; on a thrown network
error the formatter is applied to the same context and
`COULD_NOT_CONNECT_TO_SERVER`. State is untouched in both failure branches. -/
def handleAddMovie (s : AppState) (movie : Movie) (r : FetchOutcome Nat) :
    AppState × Option Toast :=
  match r with
  | .ok k =>
      ({ s with movies := s.movies ++ [setMovieId movie k], addingMovie := false },
       some (.success "Movie added successfully"))
  | .httpError detail =>
      (s, some (.error (getErrorMessage "Failed to add movie" detail)))
  | .networkError _ =>
      (s, some (.error (getErrorMessage "Failed to add movie"
        (some COULD_NOT_CONNECT_TO_SERVER))))

/-- `handleDeleteMovie` in App.js, from the `await fetch(url, {method:
'DELETE'})` on: on ok, `setMovies(movies.filter(m => m !== movie))` removes
the elements object-identical to the argument and a success toast is shown;
failure branches mirror `handleAddMovie` with context
"Failed to delete movie". -/
def handleDeleteMovie (s : AppState) (movie : Movie) (r : FetchOutcome Unit) :
    AppState × Option Toast :=
  match r with
  | .ok _ =>
      ({ s with movies := s.movies.filter (fun m => m ≠ movie) },
       some (.success "Movie deleted successfully"))
  | .httpError detail =>
      (s, some (.error (getErrorMessage "Failed to delete movie" detail)))
  | .networkError _ =>
      (s, some (.error (getErrorMessage "Failed to delete movie"
        (some COULD_NOT_CONNECT_TO_SERVER))))

/-- `fetchMovies` in App.js's mount effect: the pair is (the argument of the
`setMovies` call if one is made, the toast if one is emitted). On ok the list
is replaced; on HTTP non-ok the error body's `detail` is formatted with
context "Failed to load movies"; on a thrown error named "AbortError" the
handler returns (`if (error.name === 'AbortError') return;`); on any other
thrown error the formatter is applied to `COULD_NOT_CONNECT_TO_SERVER`. -/
def fetchMoviesEffect (r : FetchOutcome (List Movie)) :
    Option (List Movie) × Option Toast :=
  match r with
  | .ok movies => (some movies, none)
  | .httpError detail =>
      (none, some (.error (getErrorMessage "Failed to load movies" detail)))
  | .networkError errName =>
      if errName = "AbortError" then (none, none)
      else (none, some (.error (getErrorMessage "Failed to load movies"
        (some COULD_NOT_CONNECT_TO_SERVER))))

/-- `fetchActors` in ActorSelect.js's mount effect: the pair is (the argument
of the `setAvailableActors` call if one is made, the toast if one is emitted).
On ok the catalog is replaced; on HTTP non-ok the toast message is
`errorData.detail || 'Failed to load actors'`; on a thrown error named
"AbortError" the handler returns; on any other thrown error the toast is the
literal string `'Network error: Could not connect to server'`. -/
def fetchActorsEffect (r : FetchOutcome (List Actor)) :
    Option (List Actor) × Option Toast :=
  match r with
  | .ok actors => (some actors, none)
  | .httpError detail =>
      (none, some (.error (jsOrString detail "Failed to load actors")))
  | .networkError errName =>
      if errName = "AbortError" then (none, none)
      else (none, some (.error "Network error: Could not connect to server"))

/-- Modelled from the spec: the Web-platform fetch/AbortController contract,
which is library behaviour outside this repository's sources. Each mount
effect creates an `AbortController`, passes its signal to the fetch, and
calls `controller.abort()` in the unmount cleanup; once aborted, the pending
fetch promise rejects with an error named "AbortError" regardless of how the
underlying request would otherwise have resolved or rejected, which is the
resolution the awaiting handler observes. -/
def deliveredOutcome {α : Type} (cancelled : Bool) (r : FetchOutcome α) :
    FetchOutcome α :=
  if cancelled then .networkError "AbortError" else r

/-- `actorToOption` in ActorSelect.js: an option for the multi-select widget,
with the actor record itself as the value and the display label built from
the template with name and surname. -/
structure ActorOption where
  value : Actor
  label : String
deriving DecidableEq

/-- `actorToOption` in ActorSelect.js. -/
def actorToOption (actor : Actor) : ActorOption :=
  { value := actor, label := actor.name ++ " " ++ actor.surname }

/-- `handleChange` in ActorSelect.js: the widget reports the selected options
or `null`; the handler emits the option values, or the empty list on `null`.
The returned list is what the handler passes to `onChange`. -/
def handleChange (selectedOptions : Option (List ActorOption)) : List Actor :=
  match selectedOptions with
  | some opts => opts.map (fun opt => opt.value)
  | none => []

/-- The value `handleAddMovie`'s success branch passes to `setMovies`:
`[...movies, movie]` computed from the `movies` binding closed over at the
handler's render, with the server id already assigned onto the movie. -/
def addSuccessList (snapshot : List Movie) (movie : Movie) (k : Nat) :
    List Movie :=
  snapshot ++ [setMovieId movie k]

/-- The value `handleDeleteMovie`'s success branch passes to `setMovies`:
`movies.filter(m => m !== movie)` computed from the closed-over `movies`. -/
def deleteSuccessList (snapshot : List Movie) (movie : Movie) : List Movie :=
  snapshot.filter (fun m => m ≠ movie)

/-- Final movie list when an Add of `added` (server id `k`) and a Delete of
`deleted` are concurrently in flight, both handlers closing over the same
rendered `movies` value `snapshot`, and both succeed. Each success branch
calls `setMovies` with a plain value computed from `snapshot` (not with a
functional updater), and React's `setState` with a value replaces the state
wholesale, so the reconciliation that lands last determines the final list. -/
def overlapFinalList (snapshot : List Movie) (added deleted : Movie) (k : Nat)
    (deleteLandsLast : Bool) : List Movie :=
  if deleteLandsLast then deleteSuccessList snapshot deleted
  else addSuccessList snapshot added k

/-- Sample actor for concrete witnesses. -/
def actorAnn : Actor := { id := 1, name := "Ann", surname := "Lee" }

/-- Sample movie already in the list, server id 3. -/
def movieA : Movie :=
  { oid := 0, id := some 3, title := "A", year := 1999, director := "D",
    description := "", actors := [] }

/-- Sample movie as submitted by the form: no server id yet. -/
def movieB : Movie :=
  { oid := 1, id := none, title := "B", year := 2001, director := "E",
    description := "", actors := [actorAnn] }

/-- Sample movie distinct from `movieA` (different `oid`, i.e. a different
object) but carrying the same server id 3. -/
def movieC : Movie :=
  { oid := 2, id := some 3, title := "C", year := 2002, director := "F",
    description := "", actors := [] }

/-- C1: the local movie list changes only on confirmed success: every failure
outcome of Load, Add, or Delete leaves the list untouched; the Add success
branch is exactly an append of the submitted movie carrying the
server-assigned id; the Delete success branch only removes elements (the new
list is a sublist of the old), so the list always reflects confirmed server
state. -/
theorem list_changes_only_on_success :
    (∀ s m d, (handleAddMovie s m (.httpError d)).1.movies = s.movies) ∧
    (∀ s m n, (handleAddMovie s m (.networkError n)).1.movies = s.movies) ∧
    (∀ s m d, (handleDeleteMovie s m (.httpError d)).1.movies = s.movies) ∧
    (∀ s m n, (handleDeleteMovie s m (.networkError n)).1.movies = s.movies) ∧
    (∀ d, (fetchMoviesEffect (.httpError d)).1 = none) ∧
    (∀ n, (fetchMoviesEffect (.networkError n)).1 = none) ∧
    (∀ s m k, (handleAddMovie s m (.ok k)).1.movies
        = s.movies ++ [setMovieId m k] ∧ (setMovieId m k).id = some k) ∧
    (∀ s m u, List.Sublist (handleDeleteMovie s m (.ok u)).1.movies s.movies) := by
  refine ⟨fun s m d => rfl, fun s m n => rfl, fun s m d => rfl, fun s m n => rfl,
    fun d => rfl, fun n => ?_, fun s m k => ⟨rfl, rfl⟩, fun s m u => ?_⟩
  · simp only [fetchMoviesEffect]
    split <;> rfl
  · exact List.filter_sublist s.movies

/-- C2: the error formatter is pure and total; it returns the context message
unchanged on an absent or empty detail, and appends ": " and the detail
otherwise. -/
theorem getErrorMessage_spec (msg : String) :
    getErrorMessage msg none = msg ∧
    getErrorMessage msg (some "") = msg ∧
    (∀ d, d ≠ "" → getErrorMessage msg (some d) = msg ++ ": " ++ d) := by
  refine ⟨rfl, rfl, fun d hd => ?_⟩
  simp [getErrorMessage, hd]

/-- Witness for C2 at the spec's own example inputs. -/
theorem getErrorMessage_spec_witness :
    getErrorMessage "Failed to X" none = "Failed to X" ∧
    ("bad id" ≠ "" ∧
      getErrorMessage "Failed to X" (some "bad id") = "Failed to X" ++ ": " ++ "bad id") :=
  ⟨(getErrorMessage_spec "Failed to X").1,
    by decide, (getErrorMessage_spec "Failed to X").2.2 "bad id" (by decide)⟩

/-- C7: once a mount effect's cleanup has aborted its in-flight fetch, the
outcome delivered to the awaiting handler is an AbortError rejection, on
which neither the actor picker's handler nor the shell's movie-load handler
performs a state update or emits a toast — whatever the underlying
resolution or rejection of the fetch would have been. -/
theorem cancelled_fetch_no_effect :
    (∀ r : FetchOutcome (List Actor),
      fetchActorsEffect (deliveredOutcome true r) = (none, none)) ∧
    (∀ r : FetchOutcome (List Movie),
      fetchMoviesEffect (deliveredOutcome true r) = (none, none)) := by
  constructor <;> intro r <;> rfl

/-- C9: mapping actors through `actorToOption` and extracting the values back
through `handleChange` returns the original sequence; a null selection maps
to the empty sequence; and each option's label is the actor's name and
surname separated by a space. -/
theorem actorOption_roundtrip :
    (∀ actors : List Actor,
      handleChange (some (actors.map actorToOption)) = actors) ∧
    handleChange none = [] ∧
    (∀ a : Actor, (actorToOption a).label = a.name ++ " " ++ a.surname) := by
  refine ⟨fun actors => ?_, rfl, fun a => rfl⟩
  simp [handleChange, List.map_map, Function.comp_def, actorToOption]

/-- C3 counterexample: on an HTTP non-ok actor-catalog response with
detail "boom", the actor picker's toast is the raw detail "boom", whereas
the error formatter applied to context "Failed to load actors" and "boom"
yields the different string "Failed to load actors: boom" — so the actor
picker's message is not produced by the error formatter. -/
theorem fetchActors_toast_counterexample :
    fetchActorsEffect (.httpError (some "boom"))
      = (none, some (.error "boom")) ∧
    getErrorMessage "Failed to load actors" (some "boom")
      = "Failed to load actors: boom" ∧
    "boom" ≠ "Failed to load actors: boom" := by
  refine ⟨rfl, rfl, ?_⟩
  decide

/-- C3 amended: the actor picker's failure messages bypass the error
formatter: on an HTTP non-ok response with a non-empty detail d the message
is d itself; with an absent or empty detail it is "Failed to load actors";
and on a network failure other than cancellation it is the literal
"Network error: Could not connect to server". No state update happens on
any failure. -/
theorem fetchActors_error_messages :
    (∀ d, d ≠ "" → fetchActorsEffect (.httpError (some d))
        = (none, some (.error d))) ∧
    fetchActorsEffect (.httpError none)
      = (none, some (.error "Failed to load actors")) ∧
    fetchActorsEffect (.httpError (some ""))
      = (none, some (.error "Failed to load actors")) ∧
    (∀ n, n ≠ "AbortError" → fetchActorsEffect (.networkError n)
        = (none, some (.error "Network error: Could not connect to server"))) := by
  refine ⟨fun d hd => ?_, rfl, rfl, fun n hn => ?_⟩
  · simp [fetchActorsEffect, jsOrString, hd]
  · simp [fetchActorsEffect, hn]

/-- Witness for the amended C3 at concrete inputs. -/
theorem fetchActors_error_messages_witness :
    ("boom2" ≠ "" ∧
      fetchActorsEffect (.httpError (some "boom2")) = (none, some (.error "boom2"))) ∧
    ("TypeError" ≠ "AbortError" ∧
      fetchActorsEffect (.networkError "TypeError")
        = (none, some (.error "Network error: Could not connect to server"))) :=
  ⟨⟨by decide, fetchActors_error_messages.1 "boom2" (by decide)⟩,
   ⟨by decide, fetchActors_error_messages.2.2.2 "TypeError" (by decide)⟩⟩

/-- C4: while the shell is in adding-movie-view, a successful POST carrying
id k makes the Add operation assign id k onto the submitted movie, append it
at the end of the list (every previously held movie keeps its position),
exit adding-movie-view, and show the success notification. -/
theorem addMovie_success_spec (s : AppState) (m : Movie) (k : Nat)
    (h : s.addingMovie = true) :
    (handleAddMovie s m (.ok k)).1.movies = s.movies ++ [setMovieId m k] ∧
    (setMovieId m k).id = some k ∧
    (handleAddMovie s m (.ok k)).1.movies.take s.movies.length = s.movies ∧
    (handleAddMovie s m (.ok k)).1.addingMovie = false ∧
    (handleAddMovie s m (.ok k)).2 = some (.success "Movie added successfully") := by
  refine ⟨rfl, rfl, ?_, rfl, rfl⟩
  simp [handleAddMovie]

/-- Witness for C4 with the spec's server response id 7. -/
theorem addMovie_success_spec_witness :
    (AppState.mk [movieA] true).addingMovie = true ∧
    ((handleAddMovie (AppState.mk [movieA] true) movieB (.ok 7)).1.movies
        = (AppState.mk [movieA] true).movies ++ [setMovieId movieB 7] ∧
      (setMovieId movieB 7).id = some 7 ∧
      (handleAddMovie (AppState.mk [movieA] true) movieB (.ok 7)).1.movies.take
          (AppState.mk [movieA] true).movies.length
        = (AppState.mk [movieA] true).movies ∧
      (handleAddMovie (AppState.mk [movieA] true) movieB (.ok 7)).1.addingMovie = false ∧
      (handleAddMovie (AppState.mk [movieA] true) movieB (.ok 7)).2
        = some (.success "Movie added successfully")) :=
  ⟨rfl, addMovie_success_spec (AppState.mk [movieA] true) movieB 7 rfl⟩

/-- C5: while the shell is in adding-movie-view, a failed POST (HTTP non-ok
or network error) leaves the whole state — movie list and view flag —
unchanged, and the error toast is the formatter applied to context
"Failed to add movie" and the server detail (or the generic connection
failure reason on a network error). -/
theorem addMovie_failure_spec (s : AppState) (m : Movie)
    (h : s.addingMovie = true) :
    (∀ d, (handleAddMovie s m (.httpError d)).1 = s ∧
      (handleAddMovie s m (.httpError d)).1.addingMovie = true ∧
      (handleAddMovie s m (.httpError d)).2
        = some (.error (getErrorMessage "Failed to add movie" d))) ∧
    (∀ n, (handleAddMovie s m (.networkError n)).1 = s ∧
      (handleAddMovie s m (.networkError n)).1.addingMovie = true ∧
      (handleAddMovie s m (.networkError n)).2
        = some (.error (getErrorMessage "Failed to add movie"
            (some COULD_NOT_CONNECT_TO_SERVER)))) :=
  ⟨fun d => ⟨rfl, h, rfl⟩, fun n => ⟨rfl, h, rfl⟩⟩

/-- Witness for C5 at the spec's example: HTTP 400 with detail
"title required" yields the toast "Failed to add movie: title required" and
the shell stays in adding-movie-view. -/
theorem addMovie_failure_spec_witness :
    (AppState.mk [movieA] true).addingMovie = true ∧
    ((handleAddMovie (AppState.mk [movieA] true) movieB
        (.httpError (some "title required"))).1 = AppState.mk [movieA] true ∧
      (handleAddMovie (AppState.mk [movieA] true) movieB
        (.httpError (some "title required"))).1.addingMovie = true ∧
      (handleAddMovie (AppState.mk [movieA] true) movieB
        (.httpError (some "title required"))).2
        = some (.error (getErrorMessage "Failed to add movie" (some "title required")))) ∧
    getErrorMessage "Failed to add movie" (some "title required")
      = "Failed to add movie: title required" :=
  ⟨rfl,
   (addMovie_failure_spec (AppState.mk [movieA] true) movieB rfl).1 (some "title required"),
   by decide⟩

/-- C6: deleting a movie m whose id is unique in the list, on DELETE success,
yields a list with no movie carrying m's id, in which every other movie of
the original list is still present with relative order preserved (the result
is a sublist of the original), and the success notification is shown. -/
theorem deleteMovie_success_unique_id (s : AppState) (m : Movie)
    (hm : m ∈ s.movies)
    (huniq : ∀ x ∈ s.movies, x.id = m.id → x = m) :
    (∀ x ∈ (handleDeleteMovie s m (.ok ())).1.movies, x.id ≠ m.id) ∧
    (∀ x ∈ s.movies, x ≠ m → x ∈ (handleDeleteMovie s m (.ok ())).1.movies) ∧
    List.Sublist (handleDeleteMovie s m (.ok ())).1.movies s.movies ∧
    (handleDeleteMovie s m (.ok ())).2 = some (.success "Movie deleted successfully") := by
  refine ⟨?_, ?_, List.filter_sublist s.movies, rfl⟩
  · intro x hx hid
    have hx' : x ∈ s.movies ∧ x ≠ m := by
      simpa [handleDeleteMovie, List.mem_filter] using hx
    exact hx'.2 (huniq x hx'.1 hid)
  · intro x hx hne
    simp [handleDeleteMovie, List.mem_filter, hx, hne]

/-- Witness for C6: deleting movieA (the only movie with id 3 in
[movieA, movieB]) leaves a list with no id-3 movie, retains movieB, and shows
the success toast. -/
theorem deleteMovie_success_unique_id_witness :
    (movieA ∈ (AppState.mk [movieA, movieB] false).movies ∧
      ∀ x ∈ (AppState.mk [movieA, movieB] false).movies, x.id = movieA.id → x = movieA) ∧
    ((∀ x ∈ (handleDeleteMovie (AppState.mk [movieA, movieB] false) movieA
          (.ok ())).1.movies, x.id ≠ movieA.id) ∧
      (∀ x ∈ (AppState.mk [movieA, movieB] false).movies, x ≠ movieA →
        x ∈ (handleDeleteMovie (AppState.mk [movieA, movieB] false) movieA
          (.ok ())).1.movies) ∧
      List.Sublist (handleDeleteMovie (AppState.mk [movieA, movieB] false) movieA
          (.ok ())).1.movies (AppState.mk [movieA, movieB] false).movies ∧
      (handleDeleteMovie (AppState.mk [movieA, movieB] false) movieA (.ok ())).2
        = some (.success "Movie deleted successfully")) :=
  ⟨⟨by decide, by decide⟩,
   deleteMovie_success_unique_id (AppState.mk [movieA, movieB] false) movieA
     (by decide) (by decide)⟩

/-- C10: the Delete success branch removes exactly the list elements
object-identical to the argument: membership in the result is membership in
the original minus identity with d; when d is not an element the list is
unchanged while the success toast is still shown; and an element that is a
distinct object (different identity) merely sharing d's id remains. -/
theorem deleteMovie_identity_spec (s : AppState) (d : Movie) :
    (∀ x, x ∈ (handleDeleteMovie s d (.ok ())).1.movies ↔
      (x ∈ s.movies ∧ x ≠ d)) ∧
    (d ∉ s.movies → (handleDeleteMovie s d (.ok ())).1.movies = s.movies) ∧
    (handleDeleteMovie s d (.ok ())).2
      = some (.success "Movie deleted successfully") ∧
    (∀ x ∈ s.movies, x.oid ≠ d.oid →
      x ∈ (handleDeleteMovie s d (.ok ())).1.movies) := by
  refine ⟨fun x => ?_, fun hd => ?_, rfl, fun x hx hoid => ?_⟩
  · simp [handleDeleteMovie, List.mem_filter]
  · have : ∀ m ∈ s.movies, m ≠ d := fun m hm he => hd (he ▸ hm)
    simp only [handleDeleteMovie]
    exact List.filter_eq_self.2 fun m hm => by simpa using this m hm
  · have hne : x ≠ d := fun he => hoid (congrArg Movie.oid he)
    simp [handleDeleteMovie, List.mem_filter, hx, hne]

/-- Witness for C10: deleting a movie object that is not in [movieA, movieC]
but shares id 3 with both leaves the list unchanged, still shows the success
toast, and movieA (a distinct object with the same id) remains. -/
theorem deleteMovie_identity_spec_witness :
    ((Movie.mk 5 (some 3) "A" 1999 "D" "" [])
        ∉ (AppState.mk [movieA, movieC] false).movies ∧
      (handleDeleteMovie (AppState.mk [movieA, movieC] false)
          (Movie.mk 5 (some 3) "A" 1999 "D" "" []) (.ok ())).1.movies
        = (AppState.mk [movieA, movieC] false).movies) ∧
    (movieA ∈ (AppState.mk [movieA, movieC] false).movies ∧
      movieA.oid ≠ (Movie.mk 5 (some 3) "A" 1999 "D" "" []).oid ∧
      movieA ∈ (handleDeleteMovie (AppState.mk [movieA, movieC] false)
          (Movie.mk 5 (some 3) "A" 1999 "D" "" []) (.ok ())).1.movies) :=
  ⟨⟨by decide,
    (deleteMovie_identity_spec (AppState.mk [movieA, movieC] false)
        (Movie.mk 5 (some 3) "A" 1999 "D" "" [])).2.1 (by decide)⟩,
   ⟨by decide, by decide,
    (deleteMovie_identity_spec (AppState.mk [movieA, movieC] false)
        (Movie.mk 5 (some 3) "A" 1999 "D" "" [])).2.2.2 movieA (by decide)
        (by decide)⟩⟩

/-- C8 counterexample: with the list [movieA] rendered, an Add of movieB
(server id 7) and a Delete of movieA overlap, both succeed, and the Delete's
reconciliation lands last: the final list is [] — it does lack the deleted
movie, but it does not contain the added one, refuting the claim that the
two operations reconcile independently via functional updates. -/
theorem overlap_clobbers_counterexample :
    ¬ (setMovieId movieB 7 ∈ overlapFinalList [movieA] movieB movieA 7 true ∧
       movieA ∉ overlapFinalList [movieA] movieB movieA 7 true) := by
  decide

/-- C8 amended: each success branch passes to `setMovies` a plain list value
computed from the `movies` snapshot closed over at the handler's render, so
when an Add and a Delete overlap from the same rendered snapshot and both
succeed, the reconciliation landing last overwrites the other's: if the
Delete lands last the final list is the snapshot with the deleted movie
filtered out, losing the added movie whenever its id-assigned form was not
already in the snapshot; if the Add lands last the final list is the
snapshot with the added movie appended, retaining the deleted movie
whenever it was in the snapshot. -/
theorem overlap_last_write_wins (snapshot : List Movie) (added deleted : Movie)
    (k : Nat) :
    overlapFinalList snapshot added deleted k true
      = snapshot.filter (fun m => m ≠ deleted) ∧
    overlapFinalList snapshot added deleted k false
      = snapshot ++ [setMovieId added k] ∧
    (setMovieId added k ∉ snapshot →
      setMovieId added k ∉ overlapFinalList snapshot added deleted k true) ∧
    (deleted ∈ snapshot →
      deleted ∈ overlapFinalList snapshot added deleted k false) := by
  refine ⟨rfl, rfl, fun hnot hmem => ?_, fun hmem => ?_⟩
  · exact hnot (List.mem_of_mem_filter hmem)
  · simp [overlapFinalList, addSuccessList, hmem]

/-- Witness for the amended C8 at the counterexample's concrete input. -/
theorem overlap_last_write_wins_witness :
    (setMovieId movieB 7 ∉ [movieA] ∧
      setMovieId movieB 7 ∉ overlapFinalList [movieA] movieB movieA 7 true) ∧
    (movieA ∈ [movieA] ∧
      movieA ∈ overlapFinalList [movieA] movieB movieA 7 false) :=
  ⟨⟨by decide,
    (overlap_last_write_wins [movieA] movieB movieA 7).2.2.1 (by decide)⟩,
   ⟨by decide,
    (overlap_last_write_wins [movieA] movieB movieA 7).2.2.2 (by decide)⟩⟩
